import Mathlib

/-!
Shallow embedding of the submission pipeline of the student-form repository,
query pipeline, rate limiter and session manager, with theorems checking
the natural-language specification against the code.

Sources embedded:
- src/functions/api/submit.js    (validators, rate limiter, POST handler)
- src/functions/api/responses.js (pagination, filter, sort, GET handler,
                                  admin-session validation)
- src/unnamed/part_001           (login endpoint: login-attempt limiter,
                                  session check with refresh-on-read)

JS numbers standing for millisecond clock values are modelled as `Int`
(`Date.now()`), string lengths and counts as `Nat`.  KV-store contents are
modelled as association lists; `kv.put` is replace-or-append.
-/

namespace StudentForm

/-- Numeric value of a decimal digit character, as produced by the JS
`parseInt` applied to a single digit of an already digit-filtered string. -/
def digitVal (c : Char) : Nat := c.toNat - 48

/-- Embeds the JS idiom `s.replace(/\D/g, '')`: keep only the decimal
digit characters of the string. -/
def stripNonDigits (s : String) : String := String.mk (s.toList.filter Char.isDigit)

/-- Body of the checksum loop of `validateAadhar` (submit.js lines 44-53):
at an even 0-based index the digit itself is added, at an odd index the
digit is doubled and 9 is subtracted when the double exceeds 9. -/
def luhnWeight (i d : Nat) : Nat :=
  if i % 2 = 0 then d
  else
    let doubled := d * 2
    if doubled > 9 then doubled - 9 else doubled

/-- The `for (let i = 0; i < n; i++) sum += ...` loop of `validateAadhar`,
as a recursion on the index bound; the code runs it with n = 11. -/
def aadharSumUpTo (cleaned : List Char) : Nat → Nat
  | 0 => 0
  | n + 1 => aadharSumUpTo cleaned n + luhnWeight n (digitVal (cleaned.getD n '0'))

/-- Function `validateAadhar` from src/functions/api/submit.js lines 39-56: strip
non-digits, reject unless exactly 12 digits remain, then compare the 12th
digit against `(10 - sum % 10) % 10` for the weighted sum of the first 11. -/
def validateAadhar (aadhar : String) : Bool :=
  let cleaned := (stripNonDigits aadhar).toList
  if cleaned.length ≠ 12 then false
  else
    let sum := aadharSumUpTo cleaned 11
    let checkDigit := (10 - sum % 10) % 10
    checkDigit == digitVal (cleaned.getD 11 '0')

/-- Alternating-weight sum over the first 11 digits exactly as the
specification words it: 0-based even positions contribute the digit, odd
positions contribute the doubled digit minus 9 when the double exceeds 9. -/
def specAltSum (ds : List Nat) : Nat :=
  ∑ i ∈ Finset.range 11,
    (if i % 2 = 0 then ds.getD i 0
     else (if 2 * ds.getD i 0 > 9 then 2 * ds.getD i 0 - 9 else 2 * ds.getD i 0))

/-!
Rate limiter.  `checkRateLimit` (submit.js lines 11-30) and
`checkLoginAttempts` (part_001 lines 14-33) are the same sliding-window
algorithm with different constants, so it is embedded once, parameterised
by the maximum request count and the window length in milliseconds.  The
state passed in and returned is the per-IP timestamp list held in the
in-memory store (`rateLimitStore[ip]` resp. `loginAttempts[ip]`, `[]`
when the key is absent); the returned Bool is the result of the function and
the returned list is the value the store holds afterwards.
-/

/-- Sliding-window admission check: drop timestamps at or before
`now - window`, deny when at least `maxReq` remain, otherwise append `now`
and allow. -/
def slidingWindow (maxReq : Nat) (window : Int) (ts : List Int) (now : Int) :
    Bool × List Int :=
  let windowStart := now - window
  let kept := ts.filter (fun u => decide (u > windowStart))
  if kept.length ≥ maxReq then (false, kept)
  else (true, kept ++ [now])

/-- Function `checkRateLimit` from submit.js: 10 requests per 15 minutes. -/
def checkRateLimit : List Int → Int → Bool × List Int := slidingWindow 10 900000

/-- Function `checkLoginAttempts` from part_001: 5 attempts per 15 minutes. -/
def checkLoginAttempts : List Int → Int → Bool × List Int := slidingWindow 5 900000

/-!
Pagination.  `paginateArray` from src/functions/api/responses.js lines
9-25.  `Math.ceil(array.length / limit)` over JS floats is exact on these
integer inputs and is embedded as the Nat ceiling division
`(len + limit - 1) / limit`; the bridge lemma below identifies it with
the mathematical ceiling of the exact ratio.
-/

/-- Pagination metadata object built by `paginateArray`. -/
structure Pagination where
  page : Nat
  limit : Nat
  totalItems : Nat
  totalPages : Nat
  hasNextPage : Bool
  hasPrevPage : Bool
deriving DecidableEq

/-- Result of `paginateArray`: the page slice plus its metadata. -/
structure Paged (α : Type) where
  items : List α
  pagination : Pagination
deriving DecidableEq

/-- Function `paginateArray(array, page, limit)` from responses.js: slice
`[(page-1)*limit, (page-1)*limit + limit)` and compute the metadata. -/
def paginateArray {α : Type} (array : List α) (page limit : Nat) : Paged α :=
  let offset := (page - 1) * limit
  let paginatedItems := (array.drop offset).take limit
  let totalPages := (array.length + limit - 1) / limit
  { items := paginatedItems
    pagination :=
    { page := page
      limit := limit
      totalItems := array.length
      totalPages := totalPages
      hasNextPage := decide (page < totalPages)
      hasPrevPage := decide (page > 1) } }

/-!
Submission pipeline, src/functions/api/submit.js `onRequestPost`.

Modelling choices:
- a parsed JSON body is a `FormData` of optional string fields; `none`
  for the whole body models a JSON parse failure, `none` for a field
  models an absent key.  JS truthiness on a string field is
  `present ∧ nonempty`.
- `validateDOB` calls the JS `Date` parser and compares against the real
  clock; it is passed in as an opaque Bool-valued function `dobOk`, since
  none of the checked claims depend on which date strings it accepts.
- the generated response id, ISO timestamp string and current date string
  are inputs (the code derives them from the clock and `Math.random`).
- the KV store is the record of the five keys the submit handler touches
  plus the cache and session keys used by the other endpoints.
-/

/-- JS truthiness of an optional string value (`!formData[field]` is true
exactly when the field is absent or the empty string). -/
def jsTruthy : Option String → Bool
  | none => false
  | some s => s != ""

/-- Function `validateIndianMobile` from submit.js lines 33-36: strip non-digits
and test `/^[6-9]\d{9}$/`. -/
def validateIndianMobile (mobile : String) : Bool :=
  let cleaned := (stripNonDigits mobile).toList
  decide (cleaned.length = 10) &&
    (decide (6 ≤ digitVal (cleaned.getD 0 '0')) && decide (digitVal (cleaned.getD 0 '0') ≤ 9))

/-- Characters removed by the second replace of `sanitizeInput`
(ampersand, angle brackets, double quote, apostrophe, backtick, equals,
slash). -/
def dangerousChars : List Char :=
  ['&', '<', '>', Char.ofNat 34, Char.ofNat 39, Char.ofNat 96, '=', '/']

/-- JS `String.prototype.trim`: strip leading and trailing whitespace. -/
def trimChars (l : List Char) : List Char :=
  ((l.dropWhile Char.isWhitespace).reverse.dropWhile Char.isWhitespace).reverse

/-- Function `sanitizeInput` from submit.js lines 78-86: trim, drop angle brackets,
drop the dangerous characters, cap at 255 characters. -/
def sanitizeInput (s : String) : String :=
  String.mk
    ((((trimChars s.toList).filter (fun c => !(c == '<' || c == '>'))).filter
        (fun c => !dangerousChars.contains c)).take 255)

/-- Parsed JSON body of a submission. -/
structure FormData where
  name : Option String
  dob : Option String
  mobile : Option String
  father : Option String
  aadhar : Option String
deriving DecidableEq

/-- Field access `formData[field]` for the required-field loop. -/
def FormData.fieldValue (fd : FormData) : String → Option String
  | "name" => fd.name
  | "dob" => fd.dob
  | "mobile" => fd.mobile
  | "father" => fd.father
  | "aadhar" => fd.aadhar
  | _ => none

/-- The `requiredFields` array of submit.js line 139. -/
def requiredFields : List String := ["name", "dob", "mobile", "father", "aadhar"]

/-- The `sanitizedData` object of submit.js lines 156-162. -/
structure SanitizedData where
  name : String
  dob : String
  mobile : String
  father : String
  aadhar : String
deriving DecidableEq

/-- Build `sanitizedData`: sanitize name and father, keep dob, digit-strip
mobile and aadhar. -/
def sanitizeForm (fd : FormData) : SanitizedData :=
  { name := sanitizeInput (fd.name.getD "")
    dob := fd.dob.getD ""
    mobile := stripNonDigits (fd.mobile.getD "")
    father := sanitizeInput (fd.father.getD "")
    aadhar := stripNonDigits (fd.aadhar.getD "") }

/-- The sequential `validationErrors.push` block of submit.js lines
165-196, in source order. -/
def validationErrors (dobOk : String → Bool) (sd : SanitizedData) : List String :=
  (if sd.name.length < 2 then ["Name must be at least 2 characters long"] else []) ++
  (if sd.name.length > 100 then ["Name is too long"] else []) ++
  (if !dobOk sd.dob then ["Invalid date of birth"] else []) ++
  (if !validateIndianMobile sd.mobile then ["Invalid Indian mobile number"] else []) ++
  (if sd.father.length < 2 then ["Father\x27s name must be at least 2 characters long"] else []) ++
  (if sd.father.length > 100 then ["Father\x27s name is too long"] else []) ++
  (if !validateAadhar sd.aadhar then ["Invalid Aadhar number"] else [])

/-- A stored record (`responseData`, submit.js lines 215-221). -/
structure RecordData where
  id : String
  name : String
  dob : String
  mobile : String
  father : String
  aadhar : String
  timestamp : String
  ip : String
  userAgent : String
deriving DecidableEq

/-- An entry of the `responses:recent` list (submit.js lines 241-246). -/
structure RecentEntry where
  id : String
  name : String
  timestamp : String
  mobile : String
deriving DecidableEq

/-- The `stats` object (submit.js lines 256-260). -/
structure Stats where
  total : Nat
  today : Nat
  lastUpdated : Option String
deriving DecidableEq

/-- A stored admin session (part_001 lines 141-146; `lastActivity` is
added by the refresh-on-read of the session check). -/
structure SessionData where
  loggedIn : Bool
  timestamp : Int
  ip : String
  userAgent : String
  lastActivity : Option Int
deriving DecidableEq

/-- The `filters` object of the query pipeline (responses.js 144-150). -/
structure Filters where
  search : Option String
  startDate : Option String
  endDate : Option String
  mobile : Option String
  aadhar : Option String
deriving DecidableEq

/-- The echoed `sort` object of the query response. -/
structure SortEcho where
  byKey : String
  order : String
deriving DecidableEq

/-- A fully-computed query response payload (responses.js 246-256, or the
empty-index payload of lines 179-194 with no filters/sort echo). -/
structure RespPayload where
  success : Bool
  data : List RecordData
  pagination : Pagination
  stats : Stats
  filters : Option Filters
  sort : Option SortEcho
deriving DecidableEq

/-- A cache entry: payload plus creation time (responses.js 196-199). -/
structure CacheEntry where
  data : RespPayload
  timestamp : Int
deriving DecidableEq

/-- The cache key: canonical serialization of the normalized parameter
set (responses.js line 156), modelled as the tuple itself. -/
structure CacheKey where
  page : Nat
  limit : Nat
  sortBy : String
  sortOrder : String
  filters : Filters
deriving DecidableEq

/-- The KV store contents relevant to the pipelines. -/
structure KVState where
  records : List (String × RecordData)
  list : List String
  recent : List RecentEntry
  stats : Option Stats
  lastSubmissionDate : Option String
  cache : List (CacheKey × CacheEntry)
  sessions : List (String × SessionData)
deriving DecidableEq

/-- Store write `kv.put`: replace the value under an existing key or append. -/
def putAssoc {κ β : Type} [DecidableEq κ] : List (κ × β) → κ → β → List (κ × β)
  | [], k, v => [(k, v)]
  | (k', v') :: rest, k, v =>
      if k' = k then (k, v) :: rest else (k', v') :: putAssoc rest k v

/-- Store read `kv.get`: first value stored under the key. -/
def lookupAssoc {κ β : Type} [DecidableEq κ] : List (κ × β) → κ → Option β
  | [], _ => none
  | (k', v) :: rest, k => if k' = k then some v else lookupAssoc rest k

/-- Store delete `kv.delete`: drop the key. -/
def deleteAssoc {κ β : Type} [DecidableEq κ] (l : List (κ × β)) (k : κ) : List (κ × β) :=
  l.filter (fun p => p.1 != k)

/-- The five possible responses of the submit handler. -/
inductive SubmitResponse
  | rateLimited
  | invalidJson
  | missingFields (fields : List String)
  | validationFailed (errors : List String)
  | created (id : String) (timestamp : String) (name : String)
deriving DecidableEq

/-- HTTP status of each submit response (submit.js 112, 132, 149, 205,
290). -/
def SubmitResponse.status : SubmitResponse → Nat
  | .rateLimited => 429
  | .invalidJson => 400
  | .missingFields _ => 400
  | .validationFailed _ => 400
  | .created _ _ _ => 201

/-- Request-scoped inputs of the submit handler. -/
structure SubmitInput where
  ip : String
  userAgent : String
  body : Option FormData
  responseId : String
  timestamp : String
  todayStr : String
deriving DecidableEq

/-- Result of one submit request: response, new per-IP rate-limit list,
new KV state. -/
structure SubmitOutput where
  resp : SubmitResponse
  rl : List Int
  kv : KVState
deriving DecidableEq

/-- The recent-list summary prepended on success (submit.js 241-246). -/
def mkRecent (inp : SubmitInput) (sd : SanitizedData) : RecentEntry :=
  { id := inp.responseId, name := sd.name, timestamp := inp.timestamp, mobile := sd.mobile }

/-- Handler `onRequestPost` from src/functions/api/submit.js lines 95-320:
rate-limit gate, JSON parse gate, required-fields gate, sanitize,
validate, then the five KV writes of the success path. -/
def onRequestPost (dobOk : String → Bool) (now : Int) (rl : List Int)
    (inp : SubmitInput) (kv : KVState) : SubmitOutput :=
  let rlRes := checkRateLimit rl now
  if !rlRes.1 then ⟨.rateLimited, rlRes.2, kv⟩
  else
    match inp.body with
    | none => ⟨.invalidJson, rlRes.2, kv⟩
    | some formData =>
      let missing := requiredFields.filter (fun f => !jsTruthy (formData.fieldValue f))
      if missing.length > 0 then ⟨.missingFields missing, rlRes.2, kv⟩
      else
        let sd := sanitizeForm formData
        let errs := validationErrors dobOk sd
        if errs.length > 0 then ⟨.validationFailed errs, rlRes.2, kv⟩
        else
          let record : RecordData :=
            { id := inp.responseId, name := sd.name, dob := sd.dob, mobile := sd.mobile
              father := sd.father, aadhar := sd.aadhar, timestamp := inp.timestamp
              ip := inp.ip, userAgent := inp.userAgent }
          let records1 := putAssoc kv.records (String.append "response:" inp.responseId) record
          let list1 := kv.list ++ [inp.responseId]
          let recent1 := (mkRecent inp sd :: kv.recent).take 50
          let stats0 := kv.stats.getD { total := 0, today := 0, lastUpdated := some inp.timestamp }
          if kv.lastSubmissionDate ≠ some inp.todayStr then
            ⟨.created inp.responseId inp.timestamp sd.name, rlRes.2,
              { records := records1, list := list1, recent := recent1
                stats := some { total := stats0.total + 1, today := 1
                                lastUpdated := some inp.timestamp }
                lastSubmissionDate := some inp.todayStr
                cache := kv.cache, sessions := kv.sessions }⟩
          else
            ⟨.created inp.responseId inp.timestamp sd.name, rlRes.2,
              { records := records1, list := list1, recent := recent1
                stats := some { total := stats0.total + 1, today := stats0.today + 1
                                lastUpdated := some inp.timestamp }
                lastSubmissionDate := kv.lastSubmissionDate
                cache := kv.cache, sessions := kv.sessions }⟩

/-!
Query pipeline, src/functions/api/responses.js `onRequestGet`, and the
admin-session validation it gates on.

Modelling choices:
- `new Date(x).getTime()` comparisons (date-range filter, dob/timestamp
  sort keys) go through an opaque parse function `pd : String → Int`; no
  checked claim depends on the JS date grammar.
- JS string comparison (`aValue > bValue` on strings) is lexicographic
  comparison of the character lists.
- `Array.prototype.sort` with the never-zero comparator is modelled as a
  stable sort by `comparator(a,b) ≤ 0`; the checked claims do not depend
  on the order among tied keys.
- `cookieHeader.split('; ')` / `c.split('=')` are modelled by a
  fuel-structural splitter on character lists (the fuel, the input
  length, never runs out for the nonempty separators used).
- query `page` and `limit` arrive as already-parsed numbers and `sortBy`,
  `sortOrder` as their post-default strings (`parseInt` and the `timestamp`/`desc`
  normalization is upstream of every checked claim).
-/

/-- JS `String.prototype.split` on character lists: cut at each leftmost
occurrence of the (nonempty) separator.  The fuel argument is the input
length, enough because each step consumes at least one character. -/
def splitSeqFuel (sep : List Char) : Nat → List Char → List Char → List (List Char)
  | _, [], acc => [acc.reverse]
  | 0, l, acc => [acc.reverse ++ l]
  | fuel + 1, c :: rest, acc =>
    if sep.isPrefixOf (c :: rest) ∧ sep ≠ [] then
      acc.reverse :: splitSeqFuel sep fuel ((c :: rest).drop sep.length) []
    else
      splitSeqFuel sep fuel rest (c :: acc)

/-- Split a character list at every occurrence of the separator. -/
def splitSeq (sep l : List Char) : List (List Char) := splitSeqFuel sep l.length l []

/-- Cookie parsing of responses.js lines 303-305: split the header on
the two-character separator, then split each part on the equals sign; a
part with no equals sign has no value (JS `undefined`). -/
def parseCookies (h : String) : List (String × Option String) :=
  (splitSeq [';', ' '] h.toList).map (fun c =>
    match splitSeq ['='] c with
    | [] => ("", none)
    | [k] => (String.mk k, none)
    | k :: v :: _ => (String.mk k, some (String.mk v)))

/-- Lookup semantics of `Object.fromEntries`: it keeps the last entry per key; `cookies[key]` is
the value of that entry.  Outer `none`: key absent; `some none`: key present
with no value. -/
def cookieValue (h : String) (key : String) : Option (Option String) :=
  lookupAssoc (parseCookies h).reverse key

/-- Function `validateAdminSession` from responses.js lines 298-326: no or
malformed cookie, missing or logged-out session give false; an expired
session (strictly older than 24 h) is deleted and gives false; otherwise
true.  The second component is the store after the possible delete. -/
def validateAdminSession (cookieHeader : Option String) (now : Int) (kv : KVState) :
    Bool × KVState :=
  match cookieHeader with
  | none => (false, kv)
  | some h =>
    match cookieValue h "admin_session" with
    | none => (false, kv)
    | some none => (false, kv)
    | some (some sid) =>
      if sid = "" then (false, kv)
      else
        match lookupAssoc kv.sessions (String.append "session:" sid) with
        | none => (false, kv)
        | some sd =>
          if !sd.loggedIn then (false, kv)
          else if now - sd.timestamp > 86400000 then
            (false, { kv with sessions := deleteAssoc kv.sessions (String.append "session:" sid) })
          else (true, kv)

/-- Case-insensitive lowering, JS `toLowerCase`, on the character list. -/
def toLowerStr (s : String) : String := String.mk (s.toList.map Char.toLower)

/-- JS `String.prototype.includes`: substring test. -/
def jsIncludes (s sub : String) : Bool := decide (sub.toList <:+: s.toList)

/-- JS `Array.prototype.join(' ')`. -/
def joinSpace : List String → String
  | [] => ""
  | [s] => s
  | s :: rest => s ++ " " ++ joinSpace rest

/-- The searchable concatenation of responses.js lines 33-39. -/
def searchableText (r : RecordData) : String :=
  joinSpace [r.name, r.father, r.mobile, r.aadhar, r.dob]

/-- The per-record predicate of `filterResponses` (responses.js 28-77):
every supplied filter must pass — case-insensitive substring search,
inclusive timestamp range, digit-only substring match on mobile and
aadhar. -/
def passesFilters (pd : String → Int) (f : Filters) (r : RecordData) : Bool :=
  (!jsTruthy f.search ||
    jsIncludes (toLowerStr (searchableText r)) (toLowerStr (f.search.getD ""))) &&
  ((!jsTruthy f.startDate || decide (pd (f.startDate.getD "") ≤ pd r.timestamp)) &&
  ((!jsTruthy f.endDate || decide (pd r.timestamp ≤ pd (f.endDate.getD ""))) &&
  ((!jsTruthy f.mobile || jsIncludes r.mobile (stripNonDigits (f.mobile.getD ""))) &&
  (!jsTruthy f.aadhar || jsIncludes r.aadhar (stripNonDigits (f.aadhar.getD ""))))))

/-- Function `filterResponses` from responses.js lines 28-77. -/
def filterResponses (pd : String → Int) (responses : List RecordData) (f : Filters) :
    List RecordData :=
  responses.filter (passesFilters pd f)

/-- Strict key order of the sort comparator (responses.js 82-102):
`name` lowercased lexical, `dob`/`timestamp` chronological via the date
parser, `mobile` lexical on the digit string. -/
def sortKeyLt (pd : String → Int) (sortBy : String) (a b : RecordData) : Bool :=
  match sortBy with
  | "name" => decide ((toLowerStr a.name).toList < (toLowerStr b.name).toList)
  | "dob" => decide (pd a.dob < pd b.dob)
  | "mobile" => decide (a.mobile.toList < b.mobile.toList)
  | _ => decide (pd a.timestamp < pd b.timestamp)

/-- Stable insertion of an element into a sorted list. -/
def insertLe {α : Type} (le : α → α → Bool) (a : α) : List α → List α
  | [] => [a]
  | b :: rest => if le a b then a :: b :: rest else b :: insertLe le a rest

/-- Stable sort by a Boolean `le`. -/
def sortByLe {α : Type} (le : α → α → Bool) : List α → List α
  | [] => []
  | a :: rest => insertLe le a (sortByLe le rest)

/-- Function `sortResponses` from responses.js lines 80-110: sort by the
comparator `asc ? (a > b ? 1 : -1) : (a < b ? 1 : -1)`, modelled as a
stable sort by `comparator ≤ 0`. -/
def sortResponses (pd : String → Int) (responses : List RecordData)
    (sortBy sortOrder : String) : List RecordData :=
  sortByLe (fun a b =>
    if sortOrder == "asc" then !sortKeyLt pd sortBy b a else !sortKeyLt pd sortBy a b)
    responses

/-- The batched fetch of responses.js lines 216-228: walk the id list in
slices of 20, look each id up, drop missing records, keep order. -/
def fetchBatches (records : List (String × RecordData)) : Nat → List String → List RecordData
  | _, [] => []
  | 0, ids => ids.filterMap (fun id => lookupAssoc records (String.append "response:" id))
  | fuel + 1, ids =>
      (ids.take 20).filterMap (fun id => lookupAssoc records (String.append "response:" id)) ++
        fetchBatches records fuel (ids.drop 20)

/-- Run the batched fetch with enough fuel for the whole index. -/
def fetchAll (records : List (String × RecordData)) (ids : List String) : List RecordData :=
  fetchBatches records ids.length ids

/-- Query-string parameters of the responses endpoint, post-normalization
(page and limit parsed, sortBy and sortOrder defaulted). -/
structure QueryParams where
  publicFlag : Bool
  cookie : Option String
  page : Nat
  limitReq : Nat
  sortBy : String
  sortOrder : String
  search : Option String
  startDate : Option String
  endDate : Option String
  mobile : Option String
  aadhar : Option String
deriving DecidableEq

/-- The three response shapes of the responses endpoint. -/
inductive QueryResp
  | unauthorized
  | hit (p : RespPayload)
  | miss (p : RespPayload)
deriving DecidableEq

/-- HTTP status of each query response (responses.js 129, 163, 204,
267). -/
def QueryResp.status : QueryResp → Nat
  | .unauthorized => 401
  | .hit _ => 200
  | .miss _ => 200

/-- The hard-coded empty-index payload of responses.js lines 179-194:
empty data, zeroed pagination and stats, and no filters/sort echo. -/
def emptyPayload (limit : Nat) : RespPayload :=
  { success := true
    data := []
    pagination := { page := 1, limit := limit, totalItems := 0, totalPages := 0
                    hasNextPage := false, hasPrevPage := false }
    stats := { total := 0, today := 0, lastUpdated := none }
    filters := none
    sort := none }

/-- The query computation after the cache check (responses.js 175-275):
empty index short-circuit, batched fetch, filter, sort, paginate, stats
snapshot, assemble and cache. -/
def queryCompute (pd : String → Int) (now : Int) (p : QueryParams) (kv0 : KVState)
    (limit : Nat) (filters : Filters) (cacheKey : CacheKey) : QueryResp × KVState :=
  if kv0.list.length = 0 then
    let payload := emptyPayload limit
    (.miss payload,
      { kv0 with cache := putAssoc kv0.cache cacheKey { data := payload, timestamp := now } })
  else
    let responses := fetchAll kv0.records kv0.list
    let filtered := filterResponses pd responses filters
    let sorted := sortResponses pd filtered p.sortBy p.sortOrder
    let paginated := paginateArray sorted p.page limit
    let stats := kv0.stats.getD { total := 0, today := 0, lastUpdated := none }
    let payload : RespPayload :=
      { success := true, data := paginated.items, pagination := paginated.pagination
        stats := stats, filters := some filters
        sort := some { byKey := p.sortBy, order := p.sortOrder } }
    (.miss payload,
      { kv0 with cache := putAssoc kv0.cache cacheKey { data := payload, timestamp := now } })

/-- Handler `onRequestGet` from src/functions/api/responses.js lines 112-295:
session gate (skipped with `?public`), parameter normalization, cache
lookup with 5-second freshness, then `queryCompute`. -/
def onRequestGetResponses (pd : String → Int) (now : Int) (p : QueryParams)
    (kv : KVState) : QueryResp × KVState :=
  let auth := if !p.publicFlag then validateAdminSession p.cookie now kv else (true, kv)
  if !auth.1 then (.unauthorized, auth.2)
  else
    let kv0 := auth.2
    let limit := min p.limitReq 100
    let filters : Filters := { search := p.search, startDate := p.startDate
                               endDate := p.endDate, mobile := p.mobile, aadhar := p.aadhar }
    let cacheKey : CacheKey := { page := p.page, limit := limit, sortBy := p.sortBy
                                 sortOrder := p.sortOrder, filters := filters }
    match lookupAssoc kv0.cache cacheKey with
    | some c =>
      if now - c.timestamp < 5000 then (.hit c.data, kv0)
      else queryCompute pd now p kv0 limit filters cacheKey
    | none => queryCompute pd now p kv0 limit filters cacheKey

/-!
Session check with refresh-on-read, src/unnamed/part_001 `onRequestGet`
lines 198-266.  The session store is the `session:` keyed slice of the
KV store, passed directly.
-/

/-- Body of the GET /api/login response: logged-out, or logged-in with
the echoed creation timestamp and ip. -/
inductive SessionCheckResult
  | notLoggedIn
  | loggedInAs (timestamp : Int) (ip : String)
deriving DecidableEq

/-- Handler `onRequestGet` of part_001: read the session named by the cookie; if
logged in and younger than 24 h, report logged-in and rewrite the session
with `lastActivity` set to now; if logged in but stale, delete it;
otherwise answer logged-out and leave the store alone. -/
def loginStatusGet (cookieHeader : Option String) (now : Int)
    (sessions : List (String × SessionData)) :
    SessionCheckResult × List (String × SessionData) :=
  match cookieHeader with
  | none => (.notLoggedIn, sessions)
  | some h =>
    match cookieValue h "admin_session" with
    | none => (.notLoggedIn, sessions)
    | some none => (.notLoggedIn, sessions)
    | some (some sid) =>
      if sid = "" then (.notLoggedIn, sessions)
      else
        match lookupAssoc sessions (String.append "session:" sid) with
        | none => (.notLoggedIn, sessions)
        | some sd =>
          if sd.loggedIn then
            if now - sd.timestamp < 86400000 then
              (.loggedInAs sd.timestamp sd.ip,
                putAssoc sessions (String.append "session:" sid)
                  { sd with lastActivity := some now })
            else (.notLoggedIn, deleteAssoc sessions (String.append "session:" sid))
          else (.notLoggedIn, sessions)

/-- The normalized filter object of a request. -/
def queryFilters (p : QueryParams) : Filters :=
  ⟨p.search, p.startDate, p.endDate, p.mobile, p.aadhar⟩

/-- The normalized limit of a request (default already applied; hard cap
100). -/
def queryLimit (p : QueryParams) : Nat := min p.limitReq 100

/-- The cache key of a request. -/
def queryCacheKey (p : QueryParams) : CacheKey :=
  ⟨p.page, queryLimit p, p.sortBy, p.sortOrder, queryFilters p⟩

/-- The fetch→filter→sort→paginate result of a request over a store. -/
def queryPage (pd : String → Int) (p : QueryParams) (kv : KVState) : Paged RecordData :=
  paginateArray
    (sortResponses pd (filterResponses pd (fetchAll kv.records kv.list) (queryFilters p))
      p.sortBy p.sortOrder)
    p.page (queryLimit p)

theorem toList_stripNonDigits (s : String) :
    (stripNonDigits s).toList = s.toList.filter Char.isDigit := rfl

theorem getD_map_digitVal (l : List Char) (i : Nat) :
    (l.map digitVal).getD i 0 = digitVal (l.getD i '0') := by
  simp only [List.getD_eq_getElem?_getD, List.getElem?_map]
  cases h : l[i]? with
  | none => simp [digitVal]
  | some c => simp

theorem aadharSumUpTo_eq_sum (cleaned : List Char) (n : Nat) :
    aadharSumUpTo cleaned n =
      ∑ i ∈ Finset.range n, luhnWeight i (digitVal (cleaned.getD i '0')) := by
  induction n with
  | zero => simp [aadharSumUpTo]
  | succ n ih => rw [Finset.sum_range_succ, ← ih, aadharSumUpTo]

theorem specAltSum_eq (cleaned : List Char) :
    specAltSum (cleaned.map digitVal) = aadharSumUpTo cleaned 11 := by
  rw [aadharSumUpTo_eq_sum]
  unfold specAltSum
  refine Finset.sum_congr rfl fun i _ => ?_
  rw [getD_map_digitVal]
  unfold luhnWeight
  rcases Nat.even_or_odd i with h | h
  · simp [Nat.even_iff.mp h]
  · simp only [Nat.odd_iff.mp h]
    norm_num [Nat.mul_comm]

/-- C1: for every input string, `validateAadhar` returns true iff after
stripping non-digit characters exactly 12 digits remain and the 12th digit
equals `(10 - S % 10) % 10` where S is the alternating-weight sum of the
first 11 digits; in particular any string whose digit-stripped form is not
12 digits long is rejected. -/
theorem validateAadhar_spec (s : String) :
    validateAadhar s = true ↔
      ((s.toList.filter Char.isDigit).map digitVal).length = 12 ∧
        ((s.toList.filter Char.isDigit).map digitVal).getD 11 0 =
          (10 - specAltSum ((s.toList.filter Char.isDigit).map digitVal) % 10) % 10 := by
  unfold validateAadhar
  rw [toList_stripNonDigits]
  set cleaned := s.toList.filter Char.isDigit with hc
  rw [specAltSum_eq, List.length_map, getD_map_digitVal]
  by_cases hl : cleaned.length = 12
  · simp only [hl, ne_eq, not_true_eq_false, if_false, beq_iff_eq]
    exact ⟨fun h => ⟨trivial, h.symm⟩, fun h => h.2.symm⟩
  · simp only [ne_eq, hl, not_false_eq_true, if_true]
    simp [hl]

example : validateAadhar "123412341230" = true := by decide

example : validateAadhar "123412341231" = false := by decide

example : validateAadhar "1234-1234-1230" = true := by decide

example : validateAadhar "12341234123" = false := by decide

theorem slidingWindow_keep_all (k : Nat) (window t : Int) (hwin : 0 < window) :
    (List.replicate k t).filter (fun u => decide (u > t - window)) =
      List.replicate k t := by
  refine List.filter_eq_self.mpr fun a ha => ?_
  rw [List.eq_of_mem_replicate ha]
  exact decide_eq_true (by omega)

/-- C3: a sliding-window check at time `now` allows (and records `now`) iff
fewer than `maxReq` of the stored timestamps lie strictly inside the
window; a denied attempt is not recorded; consequently, with max = N, N
calls at one instant all succeed, the (N+1)th is denied, and a call a full
window later succeeds again.  `checkRateLimit` and `checkLoginAttempts`
are this algorithm at (10, 15 min) and (5, 15 min). -/
theorem slidingWindow_spec (maxReq : Nat) (window : Int) (ts : List Int) (now t : Int)
    (hmax : 0 < maxReq) (hwin : 0 < window) :
    checkRateLimit = slidingWindow 10 900000 ∧
    checkLoginAttempts = slidingWindow 5 900000 ∧
    ((slidingWindow maxReq window ts now).1 = true ↔
        (ts.filter (fun u => decide (u > now - window))).length < maxReq) ∧
    ((slidingWindow maxReq window ts now).1 = true →
        (slidingWindow maxReq window ts now).2 =
          ts.filter (fun u => decide (u > now - window)) ++ [now]) ∧
    ((slidingWindow maxReq window ts now).1 = false →
        (slidingWindow maxReq window ts now).2 =
          ts.filter (fun u => decide (u > now - window))) ∧
    (∀ k, k < maxReq →
        slidingWindow maxReq window (List.replicate k t) t =
          (true, List.replicate (k + 1) t)) ∧
    slidingWindow maxReq window (List.replicate maxReq t) t =
      (false, List.replicate maxReq t) ∧
    slidingWindow maxReq window (List.replicate maxReq t) (t + window) =
      (true, [t + window]) := by
  refine ⟨rfl, rfl, ?_, ?_, ?_, ?_, ?_, ?_⟩
  · unfold slidingWindow
    by_cases h : (ts.filter (fun u => decide (u > now - window))).length ≥ maxReq
    · simp [h, Nat.not_lt.mpr h]
    · simp [h, Nat.not_le.mp h]
  · unfold slidingWindow
    by_cases h : (ts.filter (fun u => decide (u > now - window))).length ≥ maxReq
    · simp [h]
    · simp [h]
  · unfold slidingWindow
    by_cases h : (ts.filter (fun u => decide (u > now - window))).length ≥ maxReq
    · simp [h]
    · simp [h]
  · intro k hk
    simp only [slidingWindow]
    rw [slidingWindow_keep_all k window t hwin]
    simp only [List.length_replicate, ge_iff_le, if_neg (Nat.not_le.mpr hk)]
    rw [← List.replicate_succ']
  · simp only [slidingWindow]
    rw [slidingWindow_keep_all maxReq window t hwin]
    simp [List.length_replicate]
  · simp only [slidingWindow]
    have hnil : (List.replicate maxReq t).filter
        (fun u => decide (u > t + window - window)) = [] := by
      refine List.filter_eq_nil_iff.mpr fun a ha => ?_
      rw [List.eq_of_mem_replicate ha]
      simp only [decide_eq_true_eq]
      omega
    rw [hnil]
    simp [hmax, Nat.not_le.mpr hmax]

/-- Witness for `slidingWindow_spec` at maxReq 3, window 900000, stored
timestamps [1, 2], now 5, t 0. -/
theorem slidingWindow_spec_witness :
    (0 < 3 ∧ (0 : Int) < 900000) ∧
    (checkRateLimit = slidingWindow 10 900000 ∧
    checkLoginAttempts = slidingWindow 5 900000 ∧
    ((slidingWindow 3 900000 [1, 2] 5).1 = true ↔
        (List.filter (fun u => decide (u > 5 - 900000)) [1, 2]).length < 3) ∧
    ((slidingWindow 3 900000 [1, 2] 5).1 = true →
        (slidingWindow 3 900000 [1, 2] 5).2 =
          List.filter (fun u => decide (u > 5 - 900000)) [1, 2] ++ [5]) ∧
    ((slidingWindow 3 900000 [1, 2] 5).1 = false →
        (slidingWindow 3 900000 [1, 2] 5).2 =
          List.filter (fun u => decide (u > 5 - 900000)) [1, 2]) ∧
    (∀ k, k < 3 →
        slidingWindow 3 900000 (List.replicate k 0) 0 =
          (true, List.replicate (k + 1) 0)) ∧
    slidingWindow 3 900000 (List.replicate 3 0) 0 = (false, List.replicate 3 0) ∧
    slidingWindow 3 900000 (List.replicate 3 0) (0 + 900000) = (true, [0 + 900000])) :=
  ⟨⟨by decide, by decide⟩, slidingWindow_spec 3 900000 [1, 2] 5 0 (by decide) (by decide)⟩

theorem ceil_ratio (n l : Nat) (hl : 0 < l) :
    (n + l - 1) / l = ⌈(n : ℚ) / (l : ℚ)⌉₊ := by
  have hlq : (0 : ℚ) < (l : ℚ) := by exact_mod_cast hl
  have hdm := Nat.div_add_mod (n + l - 1) l
  have hmod := Nat.mod_lt (n + l - 1) hl
  set m := (n + l - 1) / l with hm
  set r := (n + l - 1) % l with hr
  set c := ⌈(n : ℚ) / (l : ℚ)⌉₊ with hcdef
  have hcl : n ≤ c * l := by
    have h1 : (n : ℚ) / l ≤ (c : ℚ) := Nat.le_ceil _
    have h2 : (n : ℚ) ≤ (c : ℚ) * l := (div_le_iff₀ hlq).mp h1
    exact_mod_cast h2
  have hmc : m ≤ c := by
    have hcl2 : n ≤ l * c := by rw [Nat.mul_comm l c]; exact hcl
    have hle : n + l - 1 ≤ (l - 1) + l * c := by
      set K := l * c with hK
      omega
    calc m ≤ ((l - 1) + l * c) / l := Nat.div_le_div_right hle
    _ = (l - 1) / l + c := Nat.add_mul_div_left _ _ hl
    _ = c := by rw [Nat.div_eq_of_lt (by omega), Nat.zero_add]
  have hcm : c ≤ m := by
    apply Nat.ceil_le.mpr
    rw [div_le_iff₀ hlq]
    have hnm : n ≤ m * l := by
      rw [Nat.mul_comm]
      set K := l * m with hK
      omega
    exact_mod_cast hnm
  omega

/-- C4: for every list and positive `page` and `limit`, `paginateArray`
returns at most `limit` items, `totalPages` equal to the ceiling of
`totalItems / limit`, `hasNextPage` iff `page < totalPages`, `hasPrevPage`
iff `page > 1`, and `items` equal to the slice
`[(page-1)*limit, page*limit)` of the input. -/
theorem paginateArray_spec {α : Type} (array : List α) (page limit : Nat)
    (hp : 0 < page) (hl : 0 < limit) :
    (paginateArray array page limit).items.length ≤ limit ∧
    (paginateArray array page limit).pagination.totalPages =
      ⌈(array.length : ℚ) / (limit : ℚ)⌉₊ ∧
    ((paginateArray array page limit).pagination.hasNextPage = true ↔
        page < (paginateArray array page limit).pagination.totalPages) ∧
    ((paginateArray array page limit).pagination.hasPrevPage = true ↔ page > 1) ∧
    (paginateArray array page limit).items =
      (array.take (page * limit)).drop ((page - 1) * limit) := by
  refine ⟨?_, ?_, ?_, ?_, ?_⟩
  · simp only [paginateArray, List.length_take]
    exact inf_le_left
  · exact ceil_ratio array.length limit hl
  · simp [paginateArray]
  · simp [paginateArray]
  · have hsub : page * limit - (page - 1) * limit = limit := by
      rw [← Nat.sub_mul]
      have h1 : page - (page - 1) = 1 := by omega
      rw [h1, Nat.one_mul]
    rw [List.drop_take, hsub]
    rfl

/-- Witness for `paginateArray_spec` on the list [10, 20, 30] at page 2,
limit 2. -/
theorem paginateArray_spec_witness :
    (0 < 2 ∧ 0 < 2) ∧
    ((paginateArray [10, 20, 30] 2 2).items.length ≤ 2 ∧
    (paginateArray [10, 20, 30] 2 2).pagination.totalPages =
      ⌈(([10, 20, 30] : List Nat).length : ℚ) / ((2 : Nat) : ℚ)⌉₊ ∧
    ((paginateArray [10, 20, 30] 2 2).pagination.hasNextPage = true ↔
        2 < (paginateArray [10, 20, 30] 2 2).pagination.totalPages) ∧
    ((paginateArray [10, 20, 30] 2 2).pagination.hasPrevPage = true ↔ 2 > 1) ∧
    (paginateArray [10, 20, 30] 2 2).items =
      (([10, 20, 30] : List Nat).take (2 * 2)).drop ((2 - 1) * 2)) :=
  ⟨⟨by decide, by decide⟩, paginateArray_spec [10, 20, 30] 2 2 (by decide) (by decide)⟩

/-- C2: whenever the submit handler answers 429 or 400 (rate limited,
malformed JSON, missing fields, or validation failure) it performs no KV
write: the whole store — records, index list, recent list, stats,
last-submission date — is returned unchanged. -/
theorem submit_error_no_write (dobOk : String → Bool) (now : Int) (rl : List Int)
    (inp : SubmitInput) (kv : KVState)
    (h : (onRequestPost dobOk now rl inp kv).resp.status = 429 ∨
         (onRequestPost dobOk now rl inp kv).resp.status = 400) :
    (onRequestPost dobOk now rl inp kv).kv = kv := by
  simp only [onRequestPost] at h ⊢
  cases hb : (checkRateLimit rl now).1
  · simp [hb]
  · simp only [hb, Bool.not_true, Bool.false_eq_true, if_false] at h ⊢
    cases hbody : inp.body with
    | none => simp [hbody]
    | some fd =>
      simp only [hbody] at h ⊢
      by_cases hm : (requiredFields.filter fun f => !jsTruthy (fd.fieldValue f)).length > 0
      · simp [hm]
      · simp only [hm, if_false] at h ⊢
        by_cases he : (validationErrors dobOk (sanitizeForm fd)).length > 0
        · simp [he]
        · simp only [he, if_false] at h ⊢
          by_cases hd : kv.lastSubmissionDate ≠ some inp.todayStr
          · simp [hd, SubmitResponse.status] at h
          · simp [hd, SubmitResponse.status] at h

/-- Witness for `submit_error_no_write`: a malformed-JSON request (body
`none`) against a store holding one index entry changes nothing. -/
theorem submit_error_no_write_witness :
    ((onRequestPost (fun _ => true) 0 []
        ⟨"1.2.3.4", "ua", none, "resp_1", "t1", "d1"⟩
        ⟨[], ["a"], [], none, none, [], []⟩).resp.status = 429 ∨
     (onRequestPost (fun _ => true) 0 []
        ⟨"1.2.3.4", "ua", none, "resp_1", "t1", "d1"⟩
        ⟨[], ["a"], [], none, none, [], []⟩).resp.status = 400) ∧
    (onRequestPost (fun _ => true) 0 []
        ⟨"1.2.3.4", "ua", none, "resp_1", "t1", "d1"⟩
        ⟨[], ["a"], [], none, none, [], []⟩).kv =
      ⟨[], ["a"], [], none, none, [], []⟩ :=
  ⟨Or.inr (by decide),
   submit_error_no_write (fun _ => true) 0 []
     ⟨"1.2.3.4", "ua", none, "resp_1", "t1", "d1"⟩
     ⟨[], ["a"], [], none, none, [], []⟩ (Or.inr (by decide))⟩

/-- C9: the presence gate uses JS truthiness, so a required field that is
present but equal to the empty string is rejected with the 400
missing-fields response naming that field, before any sanitization or
validation runs and without touching the store. -/
theorem submit_empty_field_rejected (dobOk : String → Bool) (now : Int) (rl : List Int)
    (inp : SubmitInput) (kv : KVState) (fd : FormData) (f : String)
    (hallow : (checkRateLimit rl now).1 = true)
    (hbody : inp.body = some fd)
    (hf : f ∈ requiredFields)
    (hempty : fd.fieldValue f = some "") :
    (onRequestPost dobOk now rl inp kv).resp =
      .missingFields (requiredFields.filter (fun g => !jsTruthy (fd.fieldValue g))) ∧
    f ∈ requiredFields.filter (fun g => !jsTruthy (fd.fieldValue g)) ∧
    (onRequestPost dobOk now rl inp kv).resp.status = 400 ∧
    (onRequestPost dobOk now rl inp kv).kv = kv := by
  have hmem : f ∈ requiredFields.filter (fun g => !jsTruthy (fd.fieldValue g)) := by
    rw [List.mem_filter]
    refine ⟨hf, ?_⟩
    rw [hempty]
    rfl
  have hlen : (requiredFields.filter (fun g => !jsTruthy (fd.fieldValue g))).length > 0 :=
    List.length_pos.mpr (List.ne_nil_of_mem hmem)
  simp only [onRequestPost, hallow, Bool.not_true, Bool.false_eq_true, if_false, hbody,
    hlen, if_true]
  exact ⟨by trivial, hmem, by trivial, by trivial⟩

/-- Witness for `submit_empty_field_rejected`: mobile present but empty. -/
theorem submit_empty_field_rejected_witness :
    ((checkRateLimit [] 0).1 = true ∧
     (⟨"ip", "ua", some ⟨some "Al", some "2000-01-01", some "", some "Bob", some "123412341230"⟩,
        "resp_1", "t1", "d1"⟩ : SubmitInput).body =
       some ⟨some "Al", some "2000-01-01", some "", some "Bob", some "123412341230"⟩ ∧
     "mobile" ∈ requiredFields ∧
     FormData.fieldValue
       ⟨some "Al", some "2000-01-01", some "", some "Bob", some "123412341230"⟩ "mobile" =
       some "") ∧
    ((onRequestPost (fun _ => true) 0 []
        ⟨"ip", "ua", some ⟨some "Al", some "2000-01-01", some "", some "Bob", some "123412341230"⟩,
          "resp_1", "t1", "d1"⟩
        ⟨[], [], [], none, none, [], []⟩).resp =
      .missingFields (requiredFields.filter (fun g => !jsTruthy
        (FormData.fieldValue
          ⟨some "Al", some "2000-01-01", some "", some "Bob", some "123412341230"⟩ g))) ∧
    "mobile" ∈ requiredFields.filter (fun g => !jsTruthy
        (FormData.fieldValue
          ⟨some "Al", some "2000-01-01", some "", some "Bob", some "123412341230"⟩ g)) ∧
    (onRequestPost (fun _ => true) 0 []
        ⟨"ip", "ua", some ⟨some "Al", some "2000-01-01", some "", some "Bob", some "123412341230"⟩,
          "resp_1", "t1", "d1"⟩
        ⟨[], [], [], none, none, [], []⟩).resp.status = 400 ∧
    (onRequestPost (fun _ => true) 0 []
        ⟨"ip", "ua", some ⟨some "Al", some "2000-01-01", some "", some "Bob", some "123412341230"⟩,
          "resp_1", "t1", "d1"⟩
        ⟨[], [], [], none, none, [], []⟩).kv = ⟨[], [], [], none, none, [], []⟩) :=
  ⟨⟨by decide, rfl, by decide, by decide⟩,
   submit_empty_field_rejected (fun _ => true) 0 []
     ⟨"ip", "ua", some ⟨some "Al", some "2000-01-01", some "", some "Bob", some "123412341230"⟩,
       "resp_1", "t1", "d1"⟩
     ⟨[], [], [], none, none, [], []⟩
     ⟨some "Al", some "2000-01-01", some "", some "Bob", some "123412341230"⟩
     "mobile" (by decide) rfl (by decide) (by decide)⟩

/-- C5: when the rate-limit, parse and presence gates pass but validation
fails, the 400 response carries the full message list, with the message of
every violated rule present — not only the first violation found. -/
theorem submit_validation_errors_complete (dobOk : String → Bool) (now : Int)
    (rl : List Int) (inp : SubmitInput) (kv : KVState) (fd : FormData)
    (hallow : (checkRateLimit rl now).1 = true)
    (hbody : inp.body = some fd)
    (hnomiss : requiredFields.filter (fun f => !jsTruthy (fd.fieldValue f)) = [])
    (herr : validationErrors dobOk (sanitizeForm fd) ≠ []) :
    (onRequestPost dobOk now rl inp kv).resp =
      .validationFailed (validationErrors dobOk (sanitizeForm fd)) ∧
    (onRequestPost dobOk now rl inp kv).resp.status = 400 ∧
    ((sanitizeForm fd).name.length < 2 →
      "Name must be at least 2 characters long" ∈ validationErrors dobOk (sanitizeForm fd)) ∧
    ((sanitizeForm fd).name.length > 100 →
      "Name is too long" ∈ validationErrors dobOk (sanitizeForm fd)) ∧
    (dobOk (sanitizeForm fd).dob = false →
      "Invalid date of birth" ∈ validationErrors dobOk (sanitizeForm fd)) ∧
    (validateIndianMobile (sanitizeForm fd).mobile = false →
      "Invalid Indian mobile number" ∈ validationErrors dobOk (sanitizeForm fd)) ∧
    ((sanitizeForm fd).father.length < 2 →
      "Father\x27s name must be at least 2 characters long" ∈
        validationErrors dobOk (sanitizeForm fd)) ∧
    ((sanitizeForm fd).father.length > 100 →
      "Father\x27s name is too long" ∈ validationErrors dobOk (sanitizeForm fd)) ∧
    (validateAadhar (sanitizeForm fd).aadhar = false →
      "Invalid Aadhar number" ∈ validationErrors dobOk (sanitizeForm fd)) := by
  have hlen : (validationErrors dobOk (sanitizeForm fd)).length > 0 :=
    List.length_pos.mpr herr
  refine ⟨?_, ?_, ?_, ?_, ?_, ?_, ?_, ?_, ?_⟩
  · simp [onRequestPost, hallow, hbody, hnomiss, hlen]
  · simp [onRequestPost, hallow, hbody, hnomiss, hlen, SubmitResponse.status]
  · intro h; simp [validationErrors, h]
  · intro h; simp [validationErrors, h]
  · intro h; simp [validationErrors, h]
  · intro h; simp [validationErrors, h]
  · intro h; simp [validationErrors, h]
  · intro h; simp [validationErrors, h]
  · intro h; simp [validationErrors, h]

/-- Witness for `submit_validation_errors_complete`: a body whose mobile
and national id are both invalid; both messages are in the list. -/
theorem submit_validation_errors_complete_witness :
    ((checkRateLimit [] 0).1 = true ∧
     requiredFields.filter (fun f => !jsTruthy
       (FormData.fieldValue
         ⟨some "Al", some "2000-01-01", some "1234567890", some "Bob", some "111111111111"⟩ f)) =
       [] ∧
     validationErrors (fun _ => true)
       (sanitizeForm
         ⟨some "Al", some "2000-01-01", some "1234567890", some "Bob", some "111111111111"⟩) ≠
       []) ∧
    ((onRequestPost (fun _ => true) 0 []
        ⟨"ip", "ua",
          some ⟨some "Al", some "2000-01-01", some "1234567890", some "Bob", some "111111111111"⟩,
          "resp_1", "t1", "d1"⟩
        ⟨[], [], [], none, none, [], []⟩).resp =
      .validationFailed (validationErrors (fun _ => true)
        (sanitizeForm
          ⟨some "Al", some "2000-01-01", some "1234567890", some "Bob", some "111111111111"⟩)) ∧
     "Invalid Indian mobile number" ∈ validationErrors (fun _ => true)
        (sanitizeForm
          ⟨some "Al", some "2000-01-01", some "1234567890", some "Bob", some "111111111111"⟩) ∧
     "Invalid Aadhar number" ∈ validationErrors (fun _ => true)
        (sanitizeForm
          ⟨some "Al", some "2000-01-01", some "1234567890", some "Bob", some "111111111111"⟩)) := by
  have h := submit_validation_errors_complete (fun _ => true) 0 []
    ⟨"ip", "ua",
      some ⟨some "Al", some "2000-01-01", some "1234567890", some "Bob", some "111111111111"⟩,
      "resp_1", "t1", "d1"⟩
    ⟨[], [], [], none, none, [], []⟩
    ⟨some "Al", some "2000-01-01", some "1234567890", some "Bob", some "111111111111"⟩
    (by decide) rfl (by decide) (by decide)
  exact ⟨⟨by decide, by decide, by decide⟩,
    h.1, h.2.2.2.2.2.1 (by decide), h.2.2.2.2.2.2.2.2 (by decide)⟩

set_option maxHeartbeats 1600000 in
/-- C8: after every successful submission the recent list is the new
summary (id, name, timestamp, mobile) prepended to the old list and
truncated to the first 50 entries; hence it has length at most 50, its
head is the record just submitted, and only the oldest entries beyond
position 50 are dropped. -/
theorem submit_success_recent (dobOk : String → Bool) (now : Int) (rl : List Int)
    (inp : SubmitInput) (kv : KVState)
    (hsucc : (onRequestPost dobOk now rl inp kv).resp.status = 201) :
    ∃ fd, inp.body = some fd ∧
      (onRequestPost dobOk now rl inp kv).kv.recent =
        (mkRecent inp (sanitizeForm fd) :: kv.recent).take 50 ∧
      (onRequestPost dobOk now rl inp kv).kv.recent.length ≤ 50 ∧
      (onRequestPost dobOk now rl inp kv).kv.recent.head? =
        some (mkRecent inp (sanitizeForm fd)) := by
  simp only [onRequestPost] at hsucc ⊢
  cases hb : (checkRateLimit rl now).1
  · simp [hb, SubmitResponse.status] at hsucc
  · simp only [hb, Bool.not_true, Bool.false_eq_true, if_false] at hsucc ⊢
    cases hbody : inp.body with
    | none => simp [hbody, SubmitResponse.status] at hsucc
    | some fd =>
      simp only [hbody] at hsucc ⊢
      by_cases hm : (requiredFields.filter fun f => !jsTruthy (fd.fieldValue f)).length > 0
      · simp [hm, SubmitResponse.status] at hsucc
      · simp only [hm, if_false] at hsucc ⊢
        by_cases he : (validationErrors dobOk (sanitizeForm fd)).length > 0
        · simp [he, SubmitResponse.status] at hsucc
        · simp only [he, if_false] at hsucc ⊢
          have htake : (mkRecent inp (sanitizeForm fd) :: kv.recent).take 50 =
              mkRecent inp (sanitizeForm fd) :: kv.recent.take 49 := rfl
          by_cases hd : kv.lastSubmissionDate ≠ some inp.todayStr
          · refine ⟨fd, rfl, ?_, ?_, ?_⟩ <;>
              simp [hd, htake, List.length_take_le]
          · refine ⟨fd, rfl, ?_, ?_, ?_⟩ <;>
              simp [hd, htake, List.length_take_le]

/-- Witness for `submit_success_recent`: a fully valid submission against
an empty store. -/
theorem submit_success_recent_witness :
    ((onRequestPost (fun _ => true) 0 []
        ⟨"ip", "ua",
          some ⟨some "Al", some "2000-01-01", some "9876543210", some "Bob", some "123412341230"⟩,
          "resp_1", "t1", "d1"⟩
        ⟨[], [], [], none, none, [], []⟩).resp.status = 201) ∧
    (∃ fd,
      (⟨"ip", "ua",
        some ⟨some "Al", some "2000-01-01", some "9876543210", some "Bob", some "123412341230"⟩,
        "resp_1", "t1", "d1"⟩ : SubmitInput).body = some fd ∧
      (onRequestPost (fun _ => true) 0 []
        ⟨"ip", "ua",
          some ⟨some "Al", some "2000-01-01", some "9876543210", some "Bob", some "123412341230"⟩,
          "resp_1", "t1", "d1"⟩
        ⟨[], [], [], none, none, [], []⟩).kv.recent =
        (mkRecent
          ⟨"ip", "ua",
            some ⟨some "Al", some "2000-01-01", some "9876543210", some "Bob", some "123412341230"⟩,
            "resp_1", "t1", "d1"⟩ (sanitizeForm fd) :: ([] : List RecentEntry)).take 50 ∧
      (onRequestPost (fun _ => true) 0 []
        ⟨"ip", "ua",
          some ⟨some "Al", some "2000-01-01", some "9876543210", some "Bob", some "123412341230"⟩,
          "resp_1", "t1", "d1"⟩
        ⟨[], [], [], none, none, [], []⟩).kv.recent.length ≤ 50 ∧
      (onRequestPost (fun _ => true) 0 []
        ⟨"ip", "ua",
          some ⟨some "Al", some "2000-01-01", some "9876543210", some "Bob", some "123412341230"⟩,
          "resp_1", "t1", "d1"⟩
        ⟨[], [], [], none, none, [], []⟩).kv.recent.head? =
        some (mkRecent
          ⟨"ip", "ua",
            some ⟨some "Al", some "2000-01-01", some "9876543210", some "Bob", some "123412341230"⟩,
            "resp_1", "t1", "d1"⟩ (sanitizeForm fd))) :=
  ⟨by decide,
   submit_success_recent (fun _ => true) 0 []
     ⟨"ip", "ua",
       some ⟨some "Al", some "2000-01-01", some "9876543210", some "Bob", some "123412341230"⟩,
       "resp_1", "t1", "d1"⟩
     ⟨[], [], [], none, none, [], []⟩ (by decide)⟩

theorem lookupAssoc_putAssoc {κ β : Type} [DecidableEq κ] (l : List (κ × β)) (k : κ) (v : β) :
    lookupAssoc (putAssoc l k v) k = some v := by
  induction l with
  | nil => simp [putAssoc, lookupAssoc]
  | cons p rest ih =>
    obtain ⟨k', v'⟩ := p
    by_cases h : k' = k
    · simp [putAssoc, h, lookupAssoc]
    · simp [putAssoc, h, lookupAssoc, ih]

/-- C7: when the session named by the cookie is logged in and within its
24-hour lifetime, the check reports logged-in and rewrites the stored
session with only `lastActivity` changed — `loggedIn`, the creation
timestamp, `ip` and `userAgent` are preserved, so the expiry condition
computed from the creation timestamp is unchanged for every future
instant. -/
theorem session_refresh_preserves (h : String) (now : Int)
    (sessions : List (String × SessionData)) (sid : String) (sd : SessionData)
    (hsid : cookieValue h "admin_session" = some (some sid))
    (hne : sid ≠ "")
    (hlook : lookupAssoc sessions (String.append "session:" sid) = some sd)
    (hin : sd.loggedIn = true)
    (hfresh : now - sd.timestamp < 86400000) :
    (loginStatusGet (some h) now sessions).1 = .loggedInAs sd.timestamp sd.ip ∧
    (loginStatusGet (some h) now sessions).2 =
      putAssoc sessions (String.append "session:" sid) { sd with lastActivity := some now } ∧
    lookupAssoc (loginStatusGet (some h) now sessions).2 (String.append "session:" sid) =
      some { sd with lastActivity := some now } ∧
    ({ sd with lastActivity := some now } : SessionData).loggedIn = sd.loggedIn ∧
    ({ sd with lastActivity := some now } : SessionData).timestamp = sd.timestamp ∧
    ({ sd with lastActivity := some now } : SessionData).ip = sd.ip ∧
    ({ sd with lastActivity := some now } : SessionData).userAgent = sd.userAgent ∧
    (∀ t : Int,
      t - ({ sd with lastActivity := some now } : SessionData).timestamp > 86400000 ↔
        t - sd.timestamp > 86400000) := by
  have hres : loginStatusGet (some h) now sessions =
      (.loggedInAs sd.timestamp sd.ip,
        putAssoc sessions (String.append "session:" sid)
          { sd with lastActivity := some now }) := by
    simp [loginStatusGet, hsid, hne, hlook, hin, hfresh]
  rw [hres]
  exact ⟨rfl, rfl, lookupAssoc_putAssoc _ _ _, rfl, rfl, rfl, rfl, fun t => Iff.rfl⟩

/-- Witness for `session_refresh_preserves`: cookie `admin_session=abc`
and a live session stored under `session:abc`. -/
theorem session_refresh_preserves_witness :
    (cookieValue "admin_session=abc" "admin_session" = some (some "abc") ∧
     "abc" ≠ "" ∧
     lookupAssoc [(String.append "session:" "abc",
       (⟨true, 0, "1.2.3.4", "ua", none⟩ : SessionData))]
       (String.append "session:" "abc") = some ⟨true, 0, "1.2.3.4", "ua", none⟩ ∧
     (⟨true, 0, "1.2.3.4", "ua", none⟩ : SessionData).loggedIn = true ∧
     (5 : Int) - (⟨true, 0, "1.2.3.4", "ua", none⟩ : SessionData).timestamp < 86400000) ∧
    ((loginStatusGet (some "admin_session=abc") 5
        [(String.append "session:" "abc", ⟨true, 0, "1.2.3.4", "ua", none⟩)]).1 =
      .loggedInAs (⟨true, 0, "1.2.3.4", "ua", none⟩ : SessionData).timestamp
        (⟨true, 0, "1.2.3.4", "ua", none⟩ : SessionData).ip ∧
     (loginStatusGet (some "admin_session=abc") 5
        [(String.append "session:" "abc", ⟨true, 0, "1.2.3.4", "ua", none⟩)]).2 =
      putAssoc [(String.append "session:" "abc", ⟨true, 0, "1.2.3.4", "ua", none⟩)]
        (String.append "session:" "abc")
        { (⟨true, 0, "1.2.3.4", "ua", none⟩ : SessionData) with lastActivity := some 5 } ∧
     lookupAssoc (loginStatusGet (some "admin_session=abc") 5
        [(String.append "session:" "abc", ⟨true, 0, "1.2.3.4", "ua", none⟩)]).2
        (String.append "session:" "abc") =
      some { (⟨true, 0, "1.2.3.4", "ua", none⟩ : SessionData) with lastActivity := some 5 } ∧
     ({ (⟨true, 0, "1.2.3.4", "ua", none⟩ : SessionData) with
        lastActivity := some 5 } : SessionData).loggedIn =
      (⟨true, 0, "1.2.3.4", "ua", none⟩ : SessionData).loggedIn ∧
     ({ (⟨true, 0, "1.2.3.4", "ua", none⟩ : SessionData) with
        lastActivity := some 5 } : SessionData).timestamp =
      (⟨true, 0, "1.2.3.4", "ua", none⟩ : SessionData).timestamp ∧
     ({ (⟨true, 0, "1.2.3.4", "ua", none⟩ : SessionData) with
        lastActivity := some 5 } : SessionData).ip =
      (⟨true, 0, "1.2.3.4", "ua", none⟩ : SessionData).ip ∧
     ({ (⟨true, 0, "1.2.3.4", "ua", none⟩ : SessionData) with
        lastActivity := some 5 } : SessionData).userAgent =
      (⟨true, 0, "1.2.3.4", "ua", none⟩ : SessionData).userAgent ∧
     (∀ t : Int,
       t - ({ (⟨true, 0, "1.2.3.4", "ua", none⟩ : SessionData) with
         lastActivity := some 5 } : SessionData).timestamp > 86400000 ↔
         t - (⟨true, 0, "1.2.3.4", "ua", none⟩ : SessionData).timestamp > 86400000)) :=
  ⟨⟨by decide, by decide, by decide, by decide, by decide⟩,
   session_refresh_preserves "admin_session=abc" 5
     [(String.append "session:" "abc", ⟨true, 0, "1.2.3.4", "ua", none⟩)]
     "abc" ⟨true, 0, "1.2.3.4", "ua", none⟩
     (by decide) (by decide) (by decide) (by decide) (by decide)⟩

/-- C10: admin-session validation is total and Boolean-valued on every
cookie header and store state — an absent header, a header without an
`admin_session` entry, and a cookie naming no stored session all yield
false — and whenever it yields false on a non-public request the
responses endpoint answers 401 Unauthorized rather than an exception. -/
theorem validateAdminSession_total (cookie : Option String) (now : Int) (kv : KVState)
    (pd : String → Int) (p : QueryParams) :
    ((validateAdminSession cookie now kv).1 = true ∨
      (validateAdminSession cookie now kv).1 = false) ∧
    (cookie = none → (validateAdminSession cookie now kv).1 = false) ∧
    (∀ h, cookie = some h → cookieValue h "admin_session" = none →
      (validateAdminSession cookie now kv).1 = false) ∧
    (∀ h sid, cookie = some h → cookieValue h "admin_session" = some (some sid) →
      sid ≠ "" → lookupAssoc kv.sessions (String.append "session:" sid) = none →
      (validateAdminSession cookie now kv).1 = false) ∧
    (p.publicFlag = false → p.cookie = cookie →
      (validateAdminSession cookie now kv).1 = false →
      (onRequestGetResponses pd now p kv).1 = .unauthorized ∧
      ((onRequestGetResponses pd now p kv).1).status = 401) := by
  refine ⟨?_, ?_, ?_, ?_, ?_⟩
  · cases (validateAdminSession cookie now kv).1
    · exact Or.inr rfl
    · exact Or.inl rfl
  · intro hc
    subst hc
    rfl
  · intro h hc hcv
    subst hc
    simp [validateAdminSession, hcv]
  · intro h sid hc hcv hne hlook
    subst hc
    simp [validateAdminSession, hcv, hne, hlook]
  · intro hpub hc hval
    have hres : (onRequestGetResponses pd now p kv).1 = .unauthorized := by
      simp [onRequestGetResponses, hpub, hc, hval]
    exact ⟨hres, by rw [hres]; rfl⟩

/-- Witness for `validateAdminSession_total`: no cookie header at all on
a non-public request against an empty store. -/
theorem validateAdminSession_total_witness :
    (validateAdminSession none 0 ⟨[], [], [], none, none, [], []⟩).1 = false ∧
    (onRequestGetResponses (fun _ => 0) 0
      ⟨false, none, 1, 50, "timestamp", "desc", none, none, none, none, none⟩
      ⟨[], [], [], none, none, [], []⟩).1 = .unauthorized :=
  ⟨(validateAdminSession_total none 0 ⟨[], [], [], none, none, [], []⟩ (fun _ => 0)
      ⟨false, none, 1, 50, "timestamp", "desc", none, none, none, none, none⟩).2.1 rfl,
   ((validateAdminSession_total none 0 ⟨[], [], [], none, none, [], []⟩ (fun _ => 0)
      ⟨false, none, 1, 50, "timestamp", "desc", none, none, none, none, none⟩).2.2.2.2
      rfl rfl
      ((validateAdminSession_total none 0 ⟨[], [], [], none, none, [], []⟩ (fun _ => 0)
        ⟨false, none, 1, 50, "timestamp", "desc", none, none, none, none, none⟩).2.1
        rfl)).1⟩

theorem validateAdminSession_cases (cookie : Option String) (now : Int) (kv : KVState) :
    validateAdminSession cookie now kv = (true, kv) ∨
      (validateAdminSession cookie now kv).1 = false := by
  cases cookie with
  | none => exact Or.inr rfl
  | some s =>
    simp only [validateAdminSession]
    cases cookieValue s "admin_session" with
    | none => exact Or.inr rfl
    | some so =>
      cases so with
      | none => exact Or.inr rfl
      | some sid =>
        dsimp only
        by_cases hsid : sid = ""
        · rw [if_pos hsid]
          exact Or.inr rfl
        · rw [if_neg hsid]
          cases lookupAssoc kv.sessions (String.append "session:" sid) with
          | none => exact Or.inr rfl
          | some sd =>
            cases hli : sd.loggedIn
            · exact Or.inr (by simp [hli])
            · by_cases hexp : now - sd.timestamp > 86400000
              · exact Or.inr (by simp [hli, hexp])
              · exact Or.inl (by simp [hli, hexp])

theorem validateAdminSession_true_frame (cookie : Option String) (now : Int) (kv : KVState)
    (h : (validateAdminSession cookie now kv).1 = true) :
    (validateAdminSession cookie now kv).2 = kv := by
  rcases validateAdminSession_cases cookie now kv with hc | hc
  · rw [hc]
  · simp [hc] at h

theorem queryCompute_miss (pd : String → Int) (now : Int) (p : QueryParams)
    (kv0 : KVState) (limit : Nat) (filters : Filters) (cacheKey : CacheKey)
    (q : RespPayload)
    (h : (queryCompute pd now p kv0 limit filters cacheKey).1 = .miss q) :
    (kv0.list = [] →
      q = emptyPayload limit ∧
      lookupAssoc (queryCompute pd now p kv0 limit filters cacheKey).2.cache cacheKey =
        some ⟨emptyPayload limit, now⟩) ∧
    (kv0.list ≠ [] →
      (q.success = true ∧
       q.data = (paginateArray
          (sortResponses pd (filterResponses pd (fetchAll kv0.records kv0.list) filters)
            p.sortBy p.sortOrder) p.page limit).items ∧
       q.pagination = (paginateArray
          (sortResponses pd (filterResponses pd (fetchAll kv0.records kv0.list) filters)
            p.sortBy p.sortOrder) p.page limit).pagination ∧
       q.stats = kv0.stats.getD ⟨0, 0, none⟩ ∧
       q.filters = some filters ∧
       q.sort = some ⟨p.sortBy, p.sortOrder⟩) ∧
      lookupAssoc (queryCompute pd now p kv0 limit filters cacheKey).2.cache cacheKey =
        some ⟨q, now⟩) := by
  simp only [queryCompute] at h ⊢
  by_cases hlist : kv0.list.length = 0
  · rw [if_pos hlist] at h ⊢
    have hnil := List.length_eq_zero.mp hlist
    have hq : emptyPayload limit = q := by injection h
    refine ⟨fun _ => ⟨hq.symm, ?_⟩, fun hne2 => absurd hnil hne2⟩
    dsimp only
    rw [lookupAssoc_putAssoc, hq]
  · rw [if_neg hlist] at h ⊢
    have hne : kv0.list ≠ [] := fun hn => hlist (by rw [hn]; rfl)
    have hq := h
    rw [QueryResp.miss.injEq] at hq
    refine ⟨fun hn => absurd hn hne, fun _ => ⟨?_, ?_⟩⟩
    · rw [← hq]
      exact ⟨rfl, rfl, rfl, rfl, rfl, rfl⟩
    · dsimp only
      rw [lookupAssoc_putAssoc, hq]

theorem query_cache_tail (pd : String → Int) (now : Int) (p : QueryParams)
    (kv : KVState) (q : RespPayload) (r : QueryResp × KVState)
    (hr : r = match lookupAssoc kv.cache (queryCacheKey p) with
       | some c =>
          if now - c.timestamp < 5000 then (QueryResp.hit c.data, kv)
          else queryCompute pd now p kv (queryLimit p) (queryFilters p) (queryCacheKey p)
       | none => queryCompute pd now p kv (queryLimit p) (queryFilters p) (queryCacheKey p))
    (hmiss : r.1 = .miss q) :
    (kv.list = [] →
      q = emptyPayload (queryLimit p) ∧
      lookupAssoc r.2.cache (queryCacheKey p) = some ⟨emptyPayload (queryLimit p), now⟩) ∧
    (kv.list ≠ [] →
      (q.success = true ∧
       q.data = (queryPage pd p kv).items ∧
       q.pagination = (queryPage pd p kv).pagination ∧
       q.stats = kv.stats.getD ⟨0, 0, none⟩ ∧
       q.filters = some (queryFilters p) ∧
       q.sort = some ⟨p.sortBy, p.sortOrder⟩) ∧
      lookupAssoc r.2.cache (queryCacheKey p) = some ⟨q, now⟩) := by
  cases hc : lookupAssoc kv.cache (queryCacheKey p) with
  | some c =>
    rw [hc] at hr
    dsimp only at hr
    by_cases hfresh : now - c.timestamp < 5000
    · rw [if_pos hfresh] at hr
      rw [hr] at hmiss
      exact absurd hmiss (by simp)
    · rw [if_neg hfresh] at hr
      subst hr
      have H := queryCompute_miss pd now p kv (queryLimit p) (queryFilters p)
        (queryCacheKey p) q hmiss
      simpa only [queryPage] using H
  | none =>
    rw [hc] at hr
    dsimp only at hr
    subst hr
    have H := queryCompute_miss pd now p kv (queryLimit p) (queryFilters p)
      (queryCacheKey p) q hmiss
    simpa only [queryPage] using H

/-- C6 (amended): every successful non-cache-hit response of the query
pipeline with a nonempty index carries the page items, the pagination
metadata, the current Stats snapshot read from the store, and the echoed
filter and sort parameters, and is written to the cache; when the index
is empty the hard-coded empty page — zeroed stats, no filter or sort
echo — is returned and cached instead. -/
theorem query_miss_response_contents (pd : String → Int) (now : Int) (p : QueryParams)
    (kv : KVState) (q : RespPayload)
    (hmiss : (onRequestGetResponses pd now p kv).1 = .miss q) :
    (kv.list = [] →
      q = emptyPayload (queryLimit p) ∧
      lookupAssoc (onRequestGetResponses pd now p kv).2.cache (queryCacheKey p) =
        some ⟨emptyPayload (queryLimit p), now⟩) ∧
    (kv.list ≠ [] →
      (q.success = true ∧
       q.data = (queryPage pd p kv).items ∧
       q.pagination = (queryPage pd p kv).pagination ∧
       q.stats = kv.stats.getD ⟨0, 0, none⟩ ∧
       q.filters = some (queryFilters p) ∧
       q.sort = some ⟨p.sortBy, p.sortOrder⟩) ∧
      lookupAssoc (onRequestGetResponses pd now p kv).2.cache (queryCacheKey p) =
        some ⟨q, now⟩) := by
  by_cases hok : (if !p.publicFlag then validateAdminSession p.cookie now kv
      else (true, kv)).1 = true
  · have hkv2 : (if !p.publicFlag then validateAdminSession p.cookie now kv
        else (true, kv)).2 = kv := by
      cases hpub : p.publicFlag
      · simp only [hpub, Bool.not_false, if_true] at hok ⊢
        exact validateAdminSession_true_frame p.cookie now kv hok
      · simp [hpub]
    refine query_cache_tail pd now p kv q (onRequestGetResponses pd now p kv) ?_ hmiss
    simp only [onRequestGetResponses, hok, hkv2, Bool.not_true, Bool.false_eq_true, if_false,
      queryCacheKey, queryFilters, queryLimit]
  · have hfalse : (if !p.publicFlag then validateAdminSession p.cookie now kv
        else (true, kv)).1 = false := Bool.eq_false_iff.mpr hok
    have hun : (onRequestGetResponses pd now p kv).1 = .unauthorized := by
      simp only [onRequestGetResponses, hfalse, Bool.not_false, if_true]
    rw [hun] at hmiss
    exact absurd hmiss (by simp)

/-- Counterexample to C6 as stated: with an empty index, a nonzero stats
record in the store, and a supplied search filter, the successful
non-cache-hit response carries zeroed stats — not the stored snapshot —
and echoes no filters and no sort. -/
theorem query_empty_branch_counterexample :
    (onRequestGetResponses (fun _ => 0) 0
        ⟨true, none, 1, 50, "timestamp", "desc", some "x", none, none, none, none⟩
        ⟨[], [], [], some ⟨5, 2, none⟩, none, [], []⟩).1 =
      .miss (emptyPayload 50) ∧
    (emptyPayload 50).stats = ⟨0, 0, none⟩ ∧
    (⟨[], [], [], some ⟨5, 2, none⟩, none, [], []⟩ : KVState).stats = some ⟨5, 2, none⟩ ∧
    (emptyPayload 50).stats ≠ (⟨5, 2, none⟩ : Stats) ∧
    (emptyPayload 50).filters = none ∧
    (emptyPayload 50).sort = none := by decide

/-- Witness for `query_miss_response_contents`: a public request with no
filters over a store holding one indexed record. -/
theorem query_miss_response_contents_witness :
    ((onRequestGetResponses (fun _ => 0) 0
        ⟨true, none, 1, 50, "timestamp", "desc", none, none, none, none, none⟩
        ⟨[(String.append "response:" "a",
            ⟨"a", "Al", "2000-01-01", "9876543210", "Bob", "123412341230", "t1", "ip", "ua"⟩)],
          ["a"], [], some ⟨1, 1, none⟩, none, [], []⟩).1 =
      .miss ⟨true,
        [⟨"a", "Al", "2000-01-01", "9876543210", "Bob", "123412341230", "t1", "ip", "ua"⟩],
        ⟨1, 50, 1, 1, false, false⟩, ⟨1, 1, none⟩,
        some ⟨none, none, none, none, none⟩, some ⟨"timestamp", "desc"⟩⟩) ∧
    (["a"] ≠ ([] : List String)) ∧
    ((⟨true,
        [⟨"a", "Al", "2000-01-01", "9876543210", "Bob", "123412341230", "t1", "ip", "ua"⟩],
        ⟨1, 50, 1, 1, false, false⟩, ⟨1, 1, none⟩,
        some ⟨none, none, none, none, none⟩, some ⟨"timestamp", "desc"⟩⟩ : RespPayload).success
        = true ∧
     (⟨true,
        [⟨"a", "Al", "2000-01-01", "9876543210", "Bob", "123412341230", "t1", "ip", "ua"⟩],
        ⟨1, 50, 1, 1, false, false⟩, ⟨1, 1, none⟩,
        some ⟨none, none, none, none, none⟩, some ⟨"timestamp", "desc"⟩⟩ : RespPayload).data =
       (queryPage (fun _ => 0)
         ⟨true, none, 1, 50, "timestamp", "desc", none, none, none, none, none⟩
         ⟨[(String.append "response:" "a",
             ⟨"a", "Al", "2000-01-01", "9876543210", "Bob", "123412341230", "t1", "ip", "ua"⟩)],
           ["a"], [], some ⟨1, 1, none⟩, none, [], []⟩).items ∧
     (⟨true,
        [⟨"a", "Al", "2000-01-01", "9876543210", "Bob", "123412341230", "t1", "ip", "ua"⟩],
        ⟨1, 50, 1, 1, false, false⟩, ⟨1, 1, none⟩,
        some ⟨none, none, none, none, none⟩, some ⟨"timestamp", "desc"⟩⟩ : RespPayload).pagination =
       (queryPage (fun _ => 0)
         ⟨true, none, 1, 50, "timestamp", "desc", none, none, none, none, none⟩
         ⟨[(String.append "response:" "a",
             ⟨"a", "Al", "2000-01-01", "9876543210", "Bob", "123412341230", "t1", "ip", "ua"⟩)],
           ["a"], [], some ⟨1, 1, none⟩, none, [], []⟩).pagination ∧
     (⟨true,
        [⟨"a", "Al", "2000-01-01", "9876543210", "Bob", "123412341230", "t1", "ip", "ua"⟩],
        ⟨1, 50, 1, 1, false, false⟩, ⟨1, 1, none⟩,
        some ⟨none, none, none, none, none⟩, some ⟨"timestamp", "desc"⟩⟩ : RespPayload).stats =
       (⟨[(String.append "response:" "a",
             ⟨"a", "Al", "2000-01-01", "9876543210", "Bob", "123412341230", "t1", "ip", "ua"⟩)],
           ["a"], [], some ⟨1, 1, none⟩, none, [], []⟩ : KVState).stats.getD ⟨0, 0, none⟩ ∧
     (⟨true,
        [⟨"a", "Al", "2000-01-01", "9876543210", "Bob", "123412341230", "t1", "ip", "ua"⟩],
        ⟨1, 50, 1, 1, false, false⟩, ⟨1, 1, none⟩,
        some ⟨none, none, none, none, none⟩, some ⟨"timestamp", "desc"⟩⟩ : RespPayload).filters =
       some (queryFilters
         ⟨true, none, 1, 50, "timestamp", "desc", none, none, none, none, none⟩) ∧
     (⟨true,
        [⟨"a", "Al", "2000-01-01", "9876543210", "Bob", "123412341230", "t1", "ip", "ua"⟩],
        ⟨1, 50, 1, 1, false, false⟩, ⟨1, 1, none⟩,
        some ⟨none, none, none, none, none⟩, some ⟨"timestamp", "desc"⟩⟩ : RespPayload).sort =
       some ⟨"timestamp", "desc"⟩) ∧
    lookupAssoc (onRequestGetResponses (fun _ => 0) 0
        ⟨true, none, 1, 50, "timestamp", "desc", none, none, none, none, none⟩
        ⟨[(String.append "response:" "a",
            ⟨"a", "Al", "2000-01-01", "9876543210", "Bob", "123412341230", "t1", "ip", "ua"⟩)],
          ["a"], [], some ⟨1, 1, none⟩, none, [], []⟩).2.cache
      (queryCacheKey ⟨true, none, 1, 50, "timestamp", "desc", none, none, none, none, none⟩) =
      some ⟨⟨true,
        [⟨"a", "Al", "2000-01-01", "9876543210", "Bob", "123412341230", "t1", "ip", "ua"⟩],
        ⟨1, 50, 1, 1, false, false⟩, ⟨1, 1, none⟩,
        some ⟨none, none, none, none, none⟩, some ⟨"timestamp", "desc"⟩⟩, 0⟩ := by
  have H := (query_miss_response_contents (fun _ => 0) 0
    ⟨true, none, 1, 50, "timestamp", "desc", none, none, none, none, none⟩
    ⟨[(String.append "response:" "a",
        ⟨"a", "Al", "2000-01-01", "9876543210", "Bob", "123412341230", "t1", "ip", "ua"⟩)],
      ["a"], [], some ⟨1, 1, none⟩, none, [], []⟩
    ⟨true,
      [⟨"a", "Al", "2000-01-01", "9876543210", "Bob", "123412341230", "t1", "ip", "ua"⟩],
      ⟨1, 50, 1, 1, false, false⟩, ⟨1, 1, none⟩,
      some ⟨none, none, none, none, none⟩, some ⟨"timestamp", "desc"⟩⟩
    (by decide)).2 (by decide)
  exact ⟨by decide, by decide, H.1, H.2⟩

end StudentForm
